import Mathlib

set_option maxHeartbeats 1000000

/-!
Shallow embedding of the `attention` power-management helper
(`src/main.rs`).  External commands (`wmctrl`, `xprop`, `pactl`,
`notify-send`, `xset`) are modelled by passing their observed output in
as a parameter and by recording the side effects each function performs
as an explicit list of `Action`s.  The success path of each external
command is modelled; a failing command aborts the process in the source
and produces no further observable state.
-/

namespace Attention

/-- `ScreenBlankingState` from `src/main.rs` (lines 9-13). -/
inductive ScreenBlankingState
  | Off
  | On
deriving DecidableEq, Repr

/-- `FullscreenState` from `src/main.rs` (lines 15-19). -/
inductive FullscreenState
  | NotFullscreen
  | Fullscreen
deriving DecidableEq, Repr

/-- `TrackAudioState` from `src/main.rs` (lines 21-25). -/
inductive TrackAudioState
  | On
  | Off
deriving DecidableEq, Repr

/-- `State` from `src/main.rs` (lines 27-31). -/
structure State where
  last_screen_blanking_state : ScreenBlankingState
  last_fullscreen_state : FullscreenState
  last_track_audio_state : TrackAudioState
deriving DecidableEq, Repr

/-- `State::new` from `src/main.rs` (lines 34-40). -/
def State.new : State :=
  { last_screen_blanking_state := ScreenBlankingState.On
    last_fullscreen_state := FullscreenState.NotFullscreen
    last_track_audio_state := TrackAudioState.Off }

/-- Observable side effects of the program: stdout prints, desktop
notifications (`notify-send`) and display power-management toggles
(`xset -dpms` / `xset +dpms`). -/
inductive Action
  | printLine (msg : String)
  | notifySend (msg : String)
  | xsetDpmsOff
  | xsetDpmsOn
deriving DecidableEq, Repr

/-- Does an action list contain a `notify-send` invocation? -/
def has_notify (acts : List Action) : Bool :=
  acts.any fun a =>
    match a with
    | Action.notifySend _ => true
    | _ => false

/-- Does an action list contain a display power-management toggle
(`xset -dpms` or `xset +dpms`)? -/
def has_power_call (acts : List Action) : Bool :=
  acts.any fun a =>
    match a with
    | Action.xsetDpmsOff => true
    | Action.xsetDpmsOn => true
    | _ => false

/-- `turn_off_screen_blanking` from `src/main.rs` (lines 157-185):
when the stored blanking state is `On` it prints, sends a notification
naming the app, issues `xset -dpms`, and stores `Off`; otherwise it
does nothing. -/
def turn_off_screen_blanking (app_name : String) (state : State) :
    State × List Action :=
  if state.last_screen_blanking_state = ScreenBlankingState.On then
    ({ state with last_screen_blanking_state := ScreenBlankingState.Off },
     [Action.printLine "Turning off screen blanking..",
      Action.notifySend ("⚠️ Power Management is inhibited by " ++ app_name),
      Action.xsetDpmsOff])
  else
    (state, [])

/-- `turn_on_screen_blanking` from `src/main.rs` (lines 187-215):
when the stored blanking state is `Off` it prints, sends the
back-to-normal notification, issues `xset +dpms`, and stores `On`;
otherwise it does nothing. -/
def turn_on_screen_blanking (state : State) : State × List Action :=
  if state.last_screen_blanking_state = ScreenBlankingState.Off then
    ({ state with last_screen_blanking_state := ScreenBlankingState.On },
     [Action.printLine "Turning on screen blanking..",
      Action.notifySend "⚠️ Power Management is back to normal",
      Action.xsetDpmsOn])
  else
    (state, [])

/-- `we_are_tracking_fullscreen` from `src/main.rs` (lines 217-231),
with the result of the `is_window_fullscreen` probe passed in as the
boolean `fullscreen_sample`. -/
def we_are_tracking_fullscreen (app_name : String) (fullscreen_sample : Bool)
    (state : State) : State × List Action :=
  if fullscreen_sample then
    if state.last_fullscreen_state = FullscreenState.NotFullscreen then
      let st := { state with last_fullscreen_state := FullscreenState.Fullscreen }
      let r := turn_off_screen_blanking app_name st
      (r.1, Action.printLine (app_name ++ " is now fullscreen..") :: r.2)
    else
      (state, [])
  else
    if state.last_fullscreen_state = FullscreenState.Fullscreen then
      let st := { state with last_fullscreen_state := FullscreenState.NotFullscreen }
      let r := turn_on_screen_blanking st
      (r.1, Action.printLine (app_name ++ " is no longer fullscreen..") :: r.2)
    else
      (state, [])

/-- `we_are_tracking_audio` from `src/main.rs` (lines 233-247), with the
result of the `is_playing_audio` probe passed in as the boolean
`audio_sample`. -/
def we_are_tracking_audio (app_name : String) (audio_sample : Bool)
    (state : State) : State × List Action :=
  if audio_sample then
    if state.last_track_audio_state = TrackAudioState.Off then
      let st := { state with last_track_audio_state := TrackAudioState.On }
      let r := turn_off_screen_blanking app_name st
      (r.1, Action.printLine (app_name ++ " is now playing audio..") :: r.2)
    else
      (state, [])
  else
    if state.last_track_audio_state = TrackAudioState.On then
      let st := { state with last_track_audio_state := TrackAudioState.Off }
      let r := turn_on_screen_blanking st
      (r.1, Action.printLine (app_name ++ " is no longer playing audio..") :: r.2)
    else
      (state, [])

/-- Iterate `we_are_tracking_fullscreen` over a list of probe samples,
counting the ticks whose actuator call actually changed
`last_screen_blanking_state` (the effective actuations; at most one
actuator call happens per tick and only the actuators touch the
blanking state). -/
def run_fullscreen (app_name : String) (state : State) :
    List Bool → State × Nat
  | [] => (state, 0)
  | b :: rest =>
    let s2 := (we_are_tracking_fullscreen app_name b state).1
    let eff : Nat :=
      if s2.last_screen_blanking_state = state.last_screen_blanking_state then 0 else 1
    let r := run_fullscreen app_name s2 rest
    (r.1, eff + r.2)

/-- Iterate `we_are_tracking_audio` over a list of probe samples,
counting the effective actuations as in `run_fullscreen`. -/
def run_audio (app_name : String) (state : State) :
    List Bool → State × Nat
  | [] => (state, 0)
  | b :: rest =>
    let s2 := (we_are_tracking_audio app_name b state).1
    let eff : Nat :=
      if s2.last_screen_blanking_state = state.last_screen_blanking_state then 0 else 1
    let r := run_audio app_name s2 rest
    (r.1, eff + r.2)

/-- Number of value changes in a sample sequence, counting the first
sample as a change iff it differs from `prev`. -/
def count_changes (prev : Bool) : List Bool → Nat
  | [] => 0
  | b :: rest => (if b = prev then 0 else 1) + count_changes b rest

/-- The boolean reading of a `FullscreenState`. -/
def fs_bool : FullscreenState → Bool
  | FullscreenState.Fullscreen => true
  | FullscreenState.NotFullscreen => false

/-- The boolean reading of a `TrackAudioState`. -/
def audio_bool : TrackAudioState → Bool
  | TrackAudioState.On => true
  | TrackAudioState.Off => false

/-- Blanking is suppressed exactly while the last observed fullscreen
state is `Fullscreen`. -/
def fs_invariant (s : State) : Prop :=
  s.last_screen_blanking_state = ScreenBlankingState.Off ↔
    s.last_fullscreen_state = FullscreenState.Fullscreen

instance (s : State) : Decidable (fs_invariant s) :=
  inferInstanceAs (Decidable (_ ↔ _))

/-- Blanking is suppressed exactly while the last observed audio state
is `On`. -/
def audio_invariant (s : State) : Prop :=
  s.last_screen_blanking_state = ScreenBlankingState.Off ↔
    s.last_track_audio_state = TrackAudioState.On

instance (s : State) : Decidable (audio_invariant s) :=
  inferInstanceAs (Decidable (_ ↔ _))

/-- The tracking mode selected by the command-line flag
(`src/main.rs` lines 250-272). -/
inductive Mode
  | trackAudio
  | trackFullscreen
deriving DecidableEq, Repr

/-- Outcome of command-line handling in `main` (`src/main.rs` lines
250-272): either a fatal usage error (recording whether the help text
was printed to stdout, and the message of the abort), or the selected
mode together with the launched app's name and joined argument
string. -/
inductive ParseResult
  | usageError (printed_help : Bool) (msg : String)
  | ok (mode : Mode) (app_name : String) (app_args : String)
deriving DecidableEq, Repr

/-- Argument handling of `main` from `src/main.rs` (lines 250-272):
fewer than 3 argv entries prints the help text and aborts; otherwise
argv[1] selects the mode (any other flag aborts without printing the
help text) and argv[3..] is joined with single spaces. -/
def parse_args : List String → ParseResult
  | _a0 :: flag :: app_name :: rest =>
    let app_args := if rest.isEmpty then "" else String.intercalate " " rest
    if flag = "--track-audio" then
      ParseResult.ok Mode.trackAudio app_name app_args
    else if flag = "--track-fullscreen" then
      ParseResult.ok Mode.trackFullscreen app_name app_args
    else
      ParseResult.usageError false ("Unknown flag " ++ flag)
  | _ => ParseResult.usageError true "Not enough arguments."

/-- Whether the outcome printed the help text to stdout. -/
def ParseResult.printed_help_text : ParseResult → Bool
  | ParseResult.usageError h _ => h
  | ParseResult.ok _ _ _ => false

/-- Whether the outcome aborts the process before launching the app. -/
def ParseResult.is_fatal : ParseResult → Bool
  | ParseResult.usageError _ _ => true
  | ParseResult.ok _ _ _ => false

/-- The startup sequence of `main` up to `State::new()` (`src/main.rs`
line 274): when argument handling succeeds, the loop starts from
`State.new` whatever the selected mode. -/
def main_init (args : List String) : Option (Mode × State) :=
  match parse_args args with
  | ParseResult.ok m _ _ => some (m, State.new)
  | ParseResult.usageError _ _ => none

/-- Rust `str::to_lowercase` at the character-list level (ASCII
range, which is what `Char.toLower` folds). -/
def lower_data (l : List Char) : List Char := l.map Char.toLower

/-- Rust `str::contains` (substring containment) at the
character-list level. -/
def contains_data (needle : List Char) : List Char → Bool
  | [] => needle.isEmpty
  | c :: rest => needle.isPrefixOf (c :: rest) || contains_data needle rest

/-- Rust `str::lines` at the character-list level: split on newline
characters. -/
def split_on_nl : List Char → List (List Char)
  | [] => [[]]
  | c :: rest =>
    if c = '\n' then [] :: split_on_nl rest
    else
      match split_on_nl rest with
      | [] => [[c]]
      | l :: ls => (c :: l) :: ls

/-- The per-line window match of `wait_for_window_to_show_up` from
`src/main.rs` (lines 65-90): the whole `wmctrl -lp` output is
lowercased, and the window is found iff some line of it contains both
the decimal process id and the app name (the latter compared
verbatim). -/
def wait_line_found (app_name : String) (pid : Nat) (stdout : String) : Bool :=
  (split_on_nl (lower_data stdout.data)).any fun line =>
    contains_data (toString pid).data line && contains_data app_name.data line

/-- The whole-output window check of `is_window_closed` from
`src/main.rs` (line 101): the lowercased `wmctrl -lp` output contains
the decimal process id somewhere and the app name (verbatim)
somewhere. -/
def window_present (app_name : String) (pid : Nat) (stdout : String) : Bool :=
  contains_data (toString pid).data (lower_data stdout.data) &&
    contains_data app_name.data (lower_data stdout.data)

/-- `is_window_closed` from `src/main.rs` (lines 92-112), with the
`wmctrl -lp` output passed in as `stdout`: when the whole-output check
finds pid and app name it returns `false` leaving the state alone;
otherwise it prints, forces `turn_on_screen_blanking`, prints again and
returns `true`. -/
def is_window_closed (app_name : String) (pid : Nat) (stdout : String)
    (state : State) : Bool × State × List Action :=
  if window_present app_name pid stdout then
    (false, state, [])
  else
    let r := turn_on_screen_blanking state
    (true, r.1,
     Action.printLine (app_name ++ "\x27s window is closed..") ::
       r.2 ++ [Action.printLine "Shutting down.."])

/-- The live-stream marker scanned for by `is_playing_audio`
(`src/main.rs` line 145). -/
def stream_is_live_marker : String := "stream.is-live = \"true\""

/-- The not-corked marker scanned for by `is_playing_audio`
(`src/main.rs` line 146). -/
def stream_not_paused_marker : String := "corked: no"

/-- `is_playing_audio` from `src/main.rs` (lines 135-155), with the
`pactl list sink-inputs` output passed in as `stdout`: true iff the
lowercased whole output contains the app name (verbatim), the
live-stream marker and the not-corked marker — each anywhere in the
output. -/
def is_playing_audio (app_name : String) (stdout : String) : Bool :=
  contains_data app_name.data (lower_data stdout.data) &&
    contains_data stream_is_live_marker.data (lower_data stdout.data) &&
    contains_data stream_not_paused_marker.data (lower_data stdout.data)

/-- A probe listing rendered as the single stdout text the program
scans: the entries separated by newlines. -/
def render_entries : List String → String
  | [] => ""
  | [e] => e
  | e :: rest => e ++ "\n" ++ render_entries rest

/-- `render_entries` at the character-list level. -/
def render_data : List (List Char) → List Char
  | [] => []
  | [e] => e
  | e :: rest => e ++ '\n' :: render_data rest

/-- Spec-side definition for the refinement comparison in C6, following
the spec's words: a single audio stream entry that simultaneously
matches the application identifier, is flagged as a live stream, and is
not corked. -/
def spec_stream_matches (app_name : String) (entry : String) : Bool :=
  contains_data app_name.data (lower_data entry.data) &&
    contains_data stream_is_live_marker.data (lower_data entry.data) &&
    contains_data stream_not_paused_marker.data (lower_data entry.data)

/-- Spec-side definition for the refinement comparison in C6, following
the spec's words: some single stream entry of the listing satisfies all
three conditions simultaneously. -/
def spec_is_playing_audio (app_name : String) (entries : List String) : Bool :=
  entries.any (spec_stream_matches app_name)

lemma step_fs_invariant (app_name : String) (b : Bool) (s : State)
    (h : fs_invariant s) :
    fs_invariant (we_are_tracking_fullscreen app_name b s).1 := by
  obtain ⟨bl, fs, au⟩ := s
  simp only [fs_invariant] at h
  cases b <;> cases fs <;> cases bl <;>
    simp_all [we_are_tracking_fullscreen, turn_off_screen_blanking,
      turn_on_screen_blanking, fs_invariant]

lemma step_audio_invariant (app_name : String) (b : Bool) (s : State)
    (h : audio_invariant s) :
    audio_invariant (we_are_tracking_audio app_name b s).1 := by
  obtain ⟨bl, fs, au⟩ := s
  simp only [audio_invariant] at h
  cases b <;> cases au <;> cases bl <;>
    simp_all [we_are_tracking_audio, turn_off_screen_blanking,
      turn_on_screen_blanking, audio_invariant]

lemma run_fullscreen_sound (app_name : String) :
    ∀ (samples : List Bool) (s : State), fs_invariant s →
      fs_invariant (run_fullscreen app_name s samples).1 ∧
      (run_fullscreen app_name s samples).2 =
        count_changes (fs_bool s.last_fullscreen_state) samples := by
  intro samples
  induction samples with
  | nil => intro s h; simpa [run_fullscreen, count_changes] using h
  | cons b rest ih =>
    intro s h
    obtain ⟨bl, fs, au⟩ := s
    simp only [fs_invariant] at h
    cases b <;> cases fs <;> cases bl <;>
      simp_all [run_fullscreen, count_changes, fs_bool,
        we_are_tracking_fullscreen, turn_off_screen_blanking,
        turn_on_screen_blanking] <;>
      exact ih _ (by simp [fs_invariant])

lemma run_audio_sound (app_name : String) :
    ∀ (samples : List Bool) (s : State), audio_invariant s →
      audio_invariant (run_audio app_name s samples).1 ∧
      (run_audio app_name s samples).2 =
        count_changes (audio_bool s.last_track_audio_state) samples := by
  intro samples
  induction samples with
  | nil => intro s h; simpa [run_audio, count_changes] using h
  | cons b rest ih =>
    intro s h
    obtain ⟨bl, fs, au⟩ := s
    simp only [audio_invariant] at h
    cases b <;> cases au <;> cases bl <;>
      simp_all [run_audio, count_changes, audio_bool,
        we_are_tracking_audio, turn_off_screen_blanking,
        turn_on_screen_blanking] <;>
      exact ih _ (by simp [audio_invariant])

lemma contains_data_iff (needle : List Char) :
    ∀ hay : List Char, contains_data needle hay = true ↔ needle <:+: hay := by
  intro hay
  induction hay with
  | nil => simp [contains_data, List.isEmpty_iff]
  | cons c rest ih =>
    simp [contains_data, ih, List.infix_cons_iff]

lemma split_on_nl_pieces : ∀ l : List Char,
    ∃ h t, split_on_nl l = h :: t ∧ h <+: l ∧ ∀ p ∈ t, p <:+: l := by
  intro l
  induction l with
  | nil => exact ⟨[], [], rfl, by simp, by simp⟩
  | cons c rest ih =>
    obtain ⟨h, t, heq, hpre, hinf⟩ := ih
    by_cases hc : c = '\n'
    · refine ⟨[], h :: t, by simp [split_on_nl, hc, heq], by simp, ?_⟩
      intro p hp
      rcases List.mem_cons.mp hp with rfl | hp
      · exact List.infix_cons hpre.isInfix
      · exact List.infix_cons (hinf p hp)
    · refine ⟨c :: h, t, by simp [split_on_nl, hc, heq], ?_, ?_⟩
      · exact List.cons_prefix_cons.mpr ⟨rfl, hpre⟩
      · intro p hp
        exact List.infix_cons (hinf p hp)

lemma split_on_nl_infix (l : List Char) : ∀ p ∈ split_on_nl l, p <:+: l := by
  obtain ⟨h, t, heq, hpre, hinf⟩ := split_on_nl_pieces l
  intro p hp
  rw [heq] at hp
  rcases List.mem_cons.mp hp with rfl | hp
  · exact hpre.isInfix
  · exact hinf p hp

lemma render_entries_data : ∀ L : List String,
    (render_entries L).data = render_data (L.map String.data)
  | [] => rfl
  | [e] => rfl
  | e :: e2 :: rest => by
    have ih := render_entries_data (e2 :: rest)
    simp [render_entries, render_data, ih, List.append_assoc]

lemma mem_render_data_infix : ∀ (L : List (List Char)) (l : List Char),
    l ∈ L → l <:+: render_data L
  | [], l, h => by simp at h
  | [x], l, h => by
    simp at h
    subst h
    simp [render_data]
  | x :: y :: rest, l, h => by
    rcases List.mem_cons.mp h with rfl | h2
    · exact (List.prefix_append l ('\n' :: render_data (y :: rest))).isInfix
    · have ih := mem_render_data_infix (y :: rest) l h2
      exact (List.infix_cons ih).trans
        (List.suffix_append x ('\n' :: render_data (y :: rest))).isInfix

lemma toLower_newline : Char.toLower '\n' = '\n' := rfl

lemma lower_render_data : ∀ M : List (List Char),
    lower_data (render_data M) = render_data (M.map lower_data)
  | [] => rfl
  | [x] => rfl
  | x :: y :: rest => by
    have ih := lower_render_data (y :: rest)
    simp [render_data, lower_data, toLower_newline] at ih ⊢
    exact ih

lemma lower_render (L : List String) :
    lower_data (render_entries L).data =
      render_data (L.map fun s => lower_data s.data) := by
  rw [render_entries_data, lower_render_data, List.map_map]
  rfl

lemma line_found_imp_present (app_name : String) (pid : Nat) (stdout : String)
    (h : wait_line_found app_name pid stdout = true) :
    window_present app_name pid stdout = true := by
  unfold wait_line_found at h
  rw [List.any_eq_true] at h
  obtain ⟨line, hline, hm⟩ := h
  rw [Bool.and_eq_true] at hm
  obtain ⟨h1, h2⟩ := hm
  have hin := split_on_nl_infix _ line hline
  unfold window_present
  rw [Bool.and_eq_true]
  constructor
  · rw [contains_data_iff]
    exact ((contains_data_iff _ _).mp h1).trans hin
  · rw [contains_data_iff]
    exact ((contains_data_iff _ _).mp h2).trans hin

/-- C1: starting from the initial `State`, the number of effective
actuations (ticks where the actuator call actually changed
`last_screen_blanking_state`) performed by the active tracking function
over any finite sample sequence equals the number of value changes in
that sequence, counting the first sample as a change iff it differs
from the initially stored value — for both tracking modes. -/
theorem effective_actuations_eq_value_changes (app_name : String)
    (samples : List Bool) :
    (run_fullscreen app_name State.new samples).2 =
      count_changes (fs_bool State.new.last_fullscreen_state) samples ∧
    (run_audio app_name State.new samples).2 =
      count_changes (audio_bool State.new.last_track_audio_state) samples :=
  ⟨(run_fullscreen_sound app_name samples State.new (by decide)).2,
   (run_audio_sound app_name samples State.new (by decide)).2⟩

/-- C3: under a single active tracking mode, the invariant
"`last_screen_blanking_state = Off` iff the tracked sub-state holds"
(`last_fullscreen_state = Fullscreen` under fullscreen mode,
`last_track_audio_state = On` under audio mode) is established by the
initial `State` and preserved by every invocation of that mode's
tracking function, hence holds after every sample sequence. -/
theorem blanking_tracks_monitored_condition :
    (fs_invariant State.new ∧ audio_invariant State.new) ∧
    (∀ (app_name : String) (b : Bool) (s : State), fs_invariant s →
      fs_invariant (we_are_tracking_fullscreen app_name b s).1) ∧
    (∀ (app_name : String) (b : Bool) (s : State), audio_invariant s →
      audio_invariant (we_are_tracking_audio app_name b s).1) ∧
    (∀ (app_name : String) (samples : List Bool),
      fs_invariant (run_fullscreen app_name State.new samples).1 ∧
      audio_invariant (run_audio app_name State.new samples).1) :=
  ⟨⟨by decide, by decide⟩,
   step_fs_invariant,
   step_audio_invariant,
   fun app_name samples =>
     ⟨(run_fullscreen_sound app_name samples State.new (by decide)).1,
      (run_audio_sound app_name samples State.new (by decide)).1⟩⟩

/-- Witness for C3 at concrete inputs. -/
theorem blanking_tracks_monitored_condition_witness :
    fs_invariant (we_are_tracking_fullscreen "mpv" true State.new).1 ∧
    audio_invariant (we_are_tracking_audio "mpv" true State.new).1 :=
  ⟨blanking_tracks_monitored_condition.2.1 "mpv" true State.new (by decide),
   blanking_tracks_monitored_condition.2.2.1 "mpv" true State.new (by decide)⟩

/-- C2: each actuator call emits a notification iff it actually changes
`last_screen_blanking_state`, likewise for the power-toggle platform
call; when the stored state already equals the target value the call
emits no action at all. -/
theorem notification_iff_blanking_changes (app_name : String) (s : State) :
    (has_notify (turn_off_screen_blanking app_name s).2 = true ↔
      (turn_off_screen_blanking app_name s).1.last_screen_blanking_state ≠
        s.last_screen_blanking_state) ∧
    (has_power_call (turn_off_screen_blanking app_name s).2 = true ↔
      (turn_off_screen_blanking app_name s).1.last_screen_blanking_state ≠
        s.last_screen_blanking_state) ∧
    (s.last_screen_blanking_state = ScreenBlankingState.Off →
      (turn_off_screen_blanking app_name s).2 = []) ∧
    (has_notify (turn_on_screen_blanking s).2 = true ↔
      (turn_on_screen_blanking s).1.last_screen_blanking_state ≠
        s.last_screen_blanking_state) ∧
    (has_power_call (turn_on_screen_blanking s).2 = true ↔
      (turn_on_screen_blanking s).1.last_screen_blanking_state ≠
        s.last_screen_blanking_state) ∧
    (s.last_screen_blanking_state = ScreenBlankingState.On →
      (turn_on_screen_blanking s).2 = []) := by
  obtain ⟨bl, fs, au⟩ := s
  cases bl <;>
    simp [turn_off_screen_blanking, turn_on_screen_blanking,
      has_notify, has_power_call]

/-- Witness for C2 at concrete inputs. -/
theorem notification_iff_blanking_changes_witness :
    (turn_off_screen_blanking "mpv"
      { last_screen_blanking_state := ScreenBlankingState.Off
        last_fullscreen_state := FullscreenState.NotFullscreen
        last_track_audio_state := TrackAudioState.Off }).2 = [] ∧
    (turn_on_screen_blanking
      { last_screen_blanking_state := ScreenBlankingState.On
        last_fullscreen_state := FullscreenState.NotFullscreen
        last_track_audio_state := TrackAudioState.Off }).2 = [] :=
  ⟨(notification_iff_blanking_changes "mpv"
      { last_screen_blanking_state := ScreenBlankingState.Off
        last_fullscreen_state := FullscreenState.NotFullscreen
        last_track_audio_state := TrackAudioState.Off }).2.2.1 rfl,
   (notification_iff_blanking_changes "mpv"
      { last_screen_blanking_state := ScreenBlankingState.On
        last_fullscreen_state := FullscreenState.NotFullscreen
        last_track_audio_state := TrackAudioState.Off }).2.2.2.2.2 rfl⟩

/-- C9: the `State` record produced at startup always has blanking
`On`, fullscreen `NotFullscreen` and audio `Off`, and whenever argument
handling succeeds (whatever the mode) the loop starts from exactly that
record. -/
theorem initial_state_is_default :
    (State.new.last_screen_blanking_state = ScreenBlankingState.On ∧
     State.new.last_fullscreen_state = FullscreenState.NotFullscreen ∧
     State.new.last_track_audio_state = TrackAudioState.Off) ∧
    (∀ (args : List String) (m : Mode) (st : State),
      main_init args = some (m, st) →
        st.last_screen_blanking_state = ScreenBlankingState.On ∧
        st.last_fullscreen_state = FullscreenState.NotFullscreen ∧
        st.last_track_audio_state = TrackAudioState.Off) := by
  refine ⟨⟨rfl, rfl, rfl⟩, ?_⟩
  intro args m st h
  unfold main_init at h
  cases hp : parse_args args <;> rw [hp] at h
  · cases h
  · simp only [Option.some.injEq, Prod.mk.injEq] at h
    rw [← h.2]
    exact ⟨rfl, rfl, rfl⟩

/-- Witness for C9 at a concrete argument vector. -/
theorem initial_state_is_default_witness :
    State.new.last_screen_blanking_state = ScreenBlankingState.On ∧
    State.new.last_fullscreen_state = FullscreenState.NotFullscreen ∧
    State.new.last_track_audio_state = TrackAudioState.Off :=
  initial_state_is_default.2 ["attention", "--track-fullscreen", "mpv"]
    Mode.trackFullscreen State.new (by decide)

/-- C8 counterexample: on the argument vector
`["attention", "--bogus", "mpv"]` the program aborts (fatal), but the
help text is not printed — the help text is only printed on the
too-few-arguments path, refuting the claim that every unrecognized
flag prints the help text. -/
theorem unknown_flag_prints_no_help :
    ParseResult.is_fatal (parse_args ["attention", "--bogus", "mpv"]) = true ∧
    ParseResult.printed_help_text
      (parse_args ["attention", "--bogus", "mpv"]) = false := by
  decide

/-- C8 amended: fewer than 3 argv entries prints the help text and
terminates with failure; an unrecognized first flag with enough
arguments terminates with failure (message `Unknown flag ...`) without
printing the help text; in both cases the target application is never
launched (`main_init` yields nothing). -/
theorem usage_error_handling :
    (∀ args : List String, args.length < 3 →
      parse_args args = ParseResult.usageError true "Not enough arguments." ∧
      main_init args = none) ∧
    (∀ (a0 flag app_name : String) (rest : List String),
      flag ≠ "--track-audio" → flag ≠ "--track-fullscreen" →
      parse_args (a0 :: flag :: app_name :: rest) =
        ParseResult.usageError false ("Unknown flag " ++ flag) ∧
      main_init (a0 :: flag :: app_name :: rest) = none) := by
  constructor
  · intro args h
    match args with
    | [] => exact ⟨rfl, rfl⟩
    | [a] => exact ⟨rfl, rfl⟩
    | [a, b] => exact ⟨rfl, rfl⟩
    | a :: b :: c :: rest => simp only [List.length_cons] at h; omega
  · intro a0 flag app_name rest h1 h2
    constructor
    · simp [parse_args, h1, h2]
    · simp [main_init, parse_args, h1, h2]

/-- Witness for C8's amended claim at concrete argument vectors. -/
theorem usage_error_handling_witness :
    (parse_args ["attention"] =
      ParseResult.usageError true "Not enough arguments." ∧
     main_init ["attention"] = none) ∧
    (parse_args ["attention", "--bogus", "mpv"] =
      ParseResult.usageError false ("Unknown flag " ++ "--bogus") ∧
     main_init ["attention", "--bogus", "mpv"] = none) :=
  ⟨usage_error_handling.1 ["attention"] (by decide),
   usage_error_handling.2 "attention" "--bogus" "mpv" [] (by decide) (by decide)⟩

/-- C6 counterexample: in the two-stream listing
`["corked: no mpv", "stream.is-live = \"true\" other"]` no single
stream satisfies all three conditions (the first matches the app and is
uncorked but carries no live flag, the second is live but corked/other),
yet `is_playing_audio` returns `true` because it scans the whole
output. -/
theorem audio_conditions_split_across_streams :
    is_playing_audio "mpv"
      (render_entries ["corked: no mpv", "stream.is-live = \"true\" other"]) =
        true ∧
    spec_is_playing_audio "mpv"
      ["corked: no mpv", "stream.is-live = \"true\" other"] = false := by
  decide

/-- C6 amended: a single stream entry satisfying all three conditions
simultaneously is sufficient for `is_playing_audio` to return `true`,
but not necessary — the function checks the whole lowercased listing
for the identifier, the live-stream marker and the uncorked marker
each anywhere, not necessarily within the same stream entry. -/
theorem single_live_stream_implies_playing (app_name : String)
    (entries : List String)
    (h : spec_is_playing_audio app_name entries = true) :
    is_playing_audio app_name (render_entries entries) = true := by
  unfold spec_is_playing_audio at h
  rw [List.any_eq_true] at h
  obtain ⟨e, he, hm⟩ := h
  unfold spec_stream_matches at hm
  simp only [Bool.and_eq_true] at hm
  obtain ⟨⟨h1, h2⟩, h3⟩ := hm
  have hin : lower_data e.data <:+: lower_data (render_entries entries).data := by
    rw [lower_render]
    exact mem_render_data_infix _ _ (List.mem_map_of_mem _ he)
  unfold is_playing_audio
  simp only [Bool.and_eq_true]
  refine ⟨⟨?_, ?_⟩, ?_⟩
  · rw [contains_data_iff]
    exact ((contains_data_iff _ _).mp h1).trans hin
  · rw [contains_data_iff]
    exact ((contains_data_iff _ _).mp h2).trans hin
  · rw [contains_data_iff]
    exact ((contains_data_iff _ _).mp h3).trans hin

/-- Witness for C6's amended claim at a concrete listing. -/
theorem single_live_stream_implies_playing_witness :
    is_playing_audio "mpv"
      (render_entries ["mpv stream.is-live = \"true\" corked: no"]) = true :=
  single_live_stream_implies_playing "mpv"
    ["mpv stream.is-live = \"true\" corked: no"] (by decide)

/-- C7 counterexample: in the listing `"0x1 42 bar\n0x2 77 mpv"` no
single line contains both pid `42` and `"mpv"` (the wait-path per-line
predicate is `false`), yet the per-tick closure check still reports the
window present (`is_window_closed` returns `false`) because the pid and
the identifier occur in different lines of the whole output. -/
theorem window_match_split_across_lines :
    wait_line_found "mpv" 42 "0x1 42 bar\n0x2 77 mpv" = false ∧
    (is_window_closed "mpv" 42 "0x1 42 bar\n0x2 77 mpv" State.new).1 =
      false := by
  decide

/-- C7 amended: the wait-path predicate matches per line, while the
closure check tests the whole listing text; a single line matching both
pid and identifier implies the closure check reports the window
present, and the closure check reporting the window closed implies no
single line matches both — but not conversely. -/
theorem closure_check_coarser_than_wait (app_name : String) (pid : Nat)
    (stdout : String) (s : State) :
    (wait_line_found app_name pid stdout = true →
      (is_window_closed app_name pid stdout s).1 = false) ∧
    ((is_window_closed app_name pid stdout s).1 = true →
      wait_line_found app_name pid stdout = false) := by
  constructor
  · intro h
    simp [is_window_closed, line_found_imp_present app_name pid stdout h]
  · intro h
    cases hw : wait_line_found app_name pid stdout
    · rfl
    · exfalso
      have hp := line_found_imp_present app_name pid stdout hw
      simp [is_window_closed, hp] at h

/-- Witness for C7's amended claim at a concrete listing. -/
theorem closure_check_coarser_than_wait_witness :
    (is_window_closed "mpv" 42 "0x1 42 mpv" State.new).1 = false :=
  (closure_check_coarser_than_wait "mpv" 42 "0x1 42 mpv" State.new).1
    (by decide)

/-- C5: evaluation at the failing input — the identifier `"Foo"` fails
to match the window line `"0x1 42 foo"` (both per line and on the
whole output) and fails to match an audio listing naming `foo`,
because only the probe output is lowercased while the identifier is
compared verbatim; a lowercase identifier, by contrast, does match
uppercase probe text. -/
theorem uppercase_identifier_never_matches :
    wait_line_found "Foo" 42 "0x1 42 foo" = false ∧
    window_present "Foo" 42 "0x1 42 foo" = false ∧
    is_playing_audio "Foo" "foo stream.is-live = \"true\" corked: no" =
      false ∧
    wait_line_found "foo" 42 "0x1 42 FOO" = true := by
  decide

/-- C4: when the closure check observes the window as closed (the
whole-output match fails), it returns `true` (terminal), its resulting
state and side effects are exactly those of one
`turn_on_screen_blanking` call bracketed by the two prints — whatever
the fullscreen/audio sub-state — and if blanking was already `On` that
restore call leaves the state unchanged and performs no notification
and no power-toggle call. -/
theorem closed_window_forces_restore (app_name : String) (pid : Nat)
    (stdout : String) (s : State)
    (h : window_present app_name pid stdout = false) :
    (is_window_closed app_name pid stdout s).1 = true ∧
    (is_window_closed app_name pid stdout s).2.1 =
      (turn_on_screen_blanking s).1 ∧
    (is_window_closed app_name pid stdout s).2.2 =
      Action.printLine (app_name ++ "\x27s window is closed..") ::
        (turn_on_screen_blanking s).2 ++
          [Action.printLine "Shutting down.."] ∧
    (s.last_screen_blanking_state = ScreenBlankingState.On →
      (is_window_closed app_name pid stdout s).2.1 = s ∧
      has_notify (is_window_closed app_name pid stdout s).2.2 = false ∧
      has_power_call (is_window_closed app_name pid stdout s).2.2 = false) := by
  have hcl : is_window_closed app_name pid stdout s =
      (true, (turn_on_screen_blanking s).1,
       Action.printLine (app_name ++ "\x27s window is closed..") ::
         (turn_on_screen_blanking s).2 ++
           [Action.printLine "Shutting down.."]) := by
    simp [is_window_closed, h]
  refine ⟨by simp [hcl], by simp [hcl], by simp [hcl], ?_⟩
  intro hOn
  have hno : turn_on_screen_blanking s = (s, []) := by
    unfold turn_on_screen_blanking
    rw [hOn]
    simp
  rw [hcl, hno]
  simp [has_notify, has_power_call]

/-- Witness for C4 at a concrete empty listing and the initial state. -/
theorem closed_window_forces_restore_witness :
    (is_window_closed "mpv" 42 "" State.new).1 = true ∧
    (is_window_closed "mpv" 42 "" State.new).2.1 =
      (turn_on_screen_blanking State.new).1 ∧
    (is_window_closed "mpv" 42 "" State.new).2.2 =
      Action.printLine ("mpv" ++ "\x27s window is closed..") ::
        (turn_on_screen_blanking State.new).2 ++
          [Action.printLine "Shutting down.."] ∧
    (State.new.last_screen_blanking_state = ScreenBlankingState.On →
      (is_window_closed "mpv" 42 "" State.new).2.1 = State.new ∧
      has_notify (is_window_closed "mpv" 42 "" State.new).2.2 = false ∧
      has_power_call (is_window_closed "mpv" 42 "" State.new).2.2 = false) :=
  closed_window_forces_restore "mpv" 42 "" State.new (by decide)

/-- C10: whenever the per-tick closure check returns `false` (window
still open) it leaves the whole `State` record unchanged and performs
no side effect at all. -/
theorem open_window_leaves_state_unchanged (app_name : String) (pid : Nat)
    (stdout : String) (s : State)
    (h : (is_window_closed app_name pid stdout s).1 = false) :
    (is_window_closed app_name pid stdout s).2.1 = s ∧
    (is_window_closed app_name pid stdout s).2.2 = [] := by
  unfold is_window_closed at h ⊢
  cases hw : window_present app_name pid stdout
  · simp [hw] at h
  · simp [hw]

/-- Witness for C10 at a concrete listing where the window is open. -/
theorem open_window_leaves_state_unchanged_witness :
    (is_window_closed "mpv" 42 "0x1 42 mpv" State.new).2.1 = State.new ∧
    (is_window_closed "mpv" 42 "0x1 42 mpv" State.new).2.2 = [] :=
  open_window_leaves_state_unchanged "mpv" 42 "0x1 42 mpv" State.new
    (by decide)

end Attention
